import Mathlib

/-!
Verification of the Rust binding unit
`editors/vscode-ysh/tree-sitter-ysh/bindings/rust/lib.rs`.

The unit declares one foreign function `tree_sitter_ysh`, wraps it in the
safe accessor `language`, and embeds three text resources via `include_str`.
We give a shallow embedding: the linking/build environment is explicit, the
accessor and the constant lookups become a small operation semantics over an
immutable unit state, and the build step (`include_str`) is modelled as
UTF-8-validated file inclusion.
-/

namespace TreeSitterYsh

/-- Modelled from the spec: `tree_sitter::Language` is an "opaque
language-definition handle" produced by the external grammar library
(not under the inspected sources).  Tree-sitter handles carry an ABI
version that the parser runtime checks on `set_language`; that version
is the only observable we model. -/
structure Language where
  abiVersion : Nat
deriving DecidableEq, Repr

/-- Bytes of a file of the external grammar project. -/
abbrev FileBytes := List UInt8

/-- Modelled from the spec: the link/build environment of the unit.
`tree_sitter_ysh` is the "externally defined symbol" (a zero-argument
foreign function returning a `Language`); the three byte lists are the
contents of `../../src/node-types.json`, `../../queries/highlights.scm`
and `../../queries/locals.scm`, files of the grammar project that are
not under the inspected sources. -/
structure Env where
  tree_sitter_ysh : Unit → Language
  nodeTypesBytes : FileBytes
  highlightsBytes : FileBytes
  localsBytes : FileBytes

/-- `pub fn language() -> Language { unsafe { tree_sitter_ysh() } }`:
the safe accessor, a single delegation to the foreign function. -/
def language (env : Env) : Language :=
  env.tree_sitter_ysh ()

/-- Is `b` a UTF-8 continuation byte (`10xxxxxx`)? -/
def utf8Cont (b : UInt8) : Bool :=
  b &&& 0xC0 == 0x80

/-- UTF-8 validity of a byte sequence (RFC 3629 table: no overlong forms,
no surrogates, scalar values at most U+10FFFF). -/
def validUtf8 : FileBytes → Bool
  | [] => true
  | b :: rest =>
    if b ≤ 0x7F then
      validUtf8 rest
    else if 0xC2 ≤ b && b ≤ 0xDF then
      match rest with
      | c1 :: rest' => utf8Cont c1 && validUtf8 rest'
      | [] => false
    else if b == 0xE0 then
      match rest with
      | c1 :: c2 :: rest' =>
        (0xA0 ≤ c1 && c1 ≤ 0xBF) && utf8Cont c2 && validUtf8 rest'
      | _ => false
    else if (0xE1 ≤ b && b ≤ 0xEC) || (0xEE ≤ b && b ≤ 0xEF) then
      match rest with
      | c1 :: c2 :: rest' => utf8Cont c1 && utf8Cont c2 && validUtf8 rest'
      | _ => false
    else if b == 0xED then
      match rest with
      | c1 :: c2 :: rest' =>
        (0x80 ≤ c1 && c1 ≤ 0x9F) && utf8Cont c2 && validUtf8 rest'
      | _ => false
    else if b == 0xF0 then
      match rest with
      | c1 :: c2 :: c3 :: rest' =>
        (0x90 ≤ c1 && c1 ≤ 0xBF) && utf8Cont c2 && utf8Cont c3 && validUtf8 rest'
      | _ => false
    else if 0xF1 ≤ b && b ≤ 0xF3 then
      match rest with
      | c1 :: c2 :: c3 :: rest' =>
        utf8Cont c1 && utf8Cont c2 && utf8Cont c3 && validUtf8 rest'
      | _ => false
    else if b == 0xF4 then
      match rest with
      | c1 :: c2 :: c3 :: rest' =>
        (0x80 ≤ c1 && c1 ≤ 0x8F) && utf8Cont c2 && utf8Cont c3 && validUtf8 rest'
      | _ => false
    else
      false

/-- Modelled from the spec: the semantics of Rust's `include_str`, which is
not under the inspected sources.  It embeds the referenced file's bytes,
unchanged, as a `&str` constant; the build fails (`none`) unless the file's
content is valid UTF-8.  A Rust `&str` is represented by its byte content. -/
def includeStr (b : FileBytes) : Option FileBytes :=
  if validUtf8 b then some b else none

/-- The three embedded string constants of the unit
(`NODE_TYPES`, `HIGHLIGHTS_QUERY`, `LOCALS_QUERY`). -/
structure UnitConsts where
  NODE_TYPES : FileBytes
  HIGHLIGHTS_QUERY : FileBytes
  LOCALS_QUERY : FileBytes
deriving DecidableEq, Repr

/-- Building the unit: each `include_str` of lib.rs must succeed.
`NODE_TYPES` embeds `../../src/node-types.json`, `HIGHLIGHTS_QUERY`
embeds `../../queries/highlights.scm`, `LOCALS_QUERY` embeds
`../../queries/locals.scm`. -/
def buildUnit (env : Env) : Option UnitConsts :=
  match includeStr env.nodeTypesBytes, includeStr env.highlightsBytes,
        includeStr env.localsBytes with
  | some n, some h, some l => some ⟨n, h, l⟩
  | _, _, _ => none

/-- The state owned by the unit at runtime: exactly the three embedded
constants (the unit owns nothing else, and nothing mutable). -/
structure UnitState where
  consts : UnitConsts
deriving DecidableEq, Repr

/-- The public operations of the unit: the accessor `language` and the
three constant lookups. -/
inductive Op where
  | language
  | nodeTypes
  | highlightsQuery
  | localsQuery
deriving DecidableEq, Repr

/-- A value returned by a public operation: a language handle or the
byte content of a string constant. -/
inductive Value where
  | lang : Language → Value
  | str : FileBytes → Value
deriving DecidableEq, Repr

/-- Runtime semantics of the unit's public operations, translated from
lib.rs, in an explicitly fallible form (`Except`) and with the unit's
state passed explicitly, so that absence of error paths and of state
mutation are statable.  `Op.language` is the body of `language`; the
other operations read the corresponding constant. -/
def runOp (env : Env) (op : Op) (s : UnitState) : Except String (Value × UnitState) :=
  match op with
  | .language => .ok (.lang (env.tree_sitter_ysh ()), s)
  | .nodeTypes => .ok (.str s.consts.NODE_TYPES, s)
  | .highlightsQuery => .ok (.str s.consts.HIGHLIGHTS_QUERY, s)
  | .localsQuery => .ok (.str s.consts.LOCALS_QUERY, s)

/-- Modelled from the spec: the tree-sitter parser runtime (external to
the inspected sources).  A parser holds at most one configured language. -/
structure Parser where
  lang : Option Language
deriving DecidableEq, Repr

/-- Modelled from the spec: the language ABI version the parser runtime
produces (tree-sitter `LANGUAGE_VERSION`). -/
def LANGUAGE_VERSION : Nat := 14

/-- Modelled from the spec: the oldest language ABI version the parser
runtime still accepts (tree-sitter `MIN_COMPATIBLE_LANGUAGE_VERSION`). -/
def MIN_COMPATIBLE_LANGUAGE_VERSION : Nat := 13

/-- Modelled from the spec: `Parser::set_language`, which configures the
parser with a language and fails exactly when the language's ABI version
is outside the compatible range. -/
def set_language (p : Parser) (l : Language) : Except String Parser :=
  if MIN_COMPATIBLE_LANGUAGE_VERSION ≤ l.abiVersion ∧ l.abiVersion ≤ LANGUAGE_VERSION
  then .ok { p with lang := some l }
  else .error "Incompatible language version"

/-- Modelled from the spec: a well-linked environment, where the external
symbol resolves to a handle "expected to remain valid for the process
lifetime", i.e. one the parser runtime accepts. -/
def WellLinked (env : Env) : Prop :=
  ∀ u : Unit, MIN_COMPATIBLE_LANGUAGE_VERSION ≤ (env.tree_sitter_ysh u).abiVersion ∧
    (env.tree_sitter_ysh u).abiVersion ≤ LANGUAGE_VERSION

/-- `includeStr` never alters the bytes it embeds. -/
theorem includeStr_eq {b s : FileBytes} (h : includeStr b = some s) : s = b := by
  unfold includeStr at h
  split at h
  · exact (Option.some.injEq ..▸ h).symm
  · exact absurd h (by simp)

/-- `includeStr` only succeeds on valid UTF-8. -/
theorem includeStr_valid {b s : FileBytes} (h : includeStr b = some s) :
    validUtf8 s = true := by
  unfold includeStr at h
  split at h
  · cases h; assumption
  · exact absurd h (by simp)

/-! Concrete environments and states used by the witnesses. -/

/-- A handle at the current ABI version. -/
def langOk : Language := ⟨14⟩

/-- A handle at an incompatible ABI version. -/
def langOld : Language := ⟨12⟩

/-- A concrete well-linked environment with small ASCII resource files. -/
def envA : Env where
  tree_sitter_ysh := fun _ => langOk
  nodeTypesBytes := [0x5B, 0x5D]
  highlightsBytes := [0x3B, 0x0A]
  localsBytes := []

/-- The constants `buildUnit` produces from `envA`. -/
def constsA : UnitConsts := ⟨[0x5B, 0x5D], [0x3B, 0x0A], []⟩

/-- The unit state built from `envA`. -/
def stA : UnitState := ⟨constsA⟩

/-- A concrete environment whose resource files use multi-byte UTF-8. -/
def envB : Env where
  tree_sitter_ysh := fun _ => langOk
  nodeTypesBytes := [0xCE, 0xBB]
  highlightsBytes := [0xE2, 0x82, 0xAC]
  localsBytes := [0xF0, 0x9F, 0x90, 0x8D]

/-- The constants `buildUnit` produces from `envB`. -/
def constsB : UnitConsts := ⟨[0xCE, 0xBB], [0xE2, 0x82, 0xAC], [0xF0, 0x9F, 0x90, 0x8D]⟩

/-- An environment that differs from `envA` only in the foreign function. -/
def envC : Env where
  tree_sitter_ysh := fun _ => langOld
  nodeTypesBytes := [0x5B, 0x5D]
  highlightsBytes := [0x3B, 0x0A]
  localsBytes := []

/-- A fresh parser with no language configured. -/
def parser0 : Parser := ⟨none⟩

/-- C1: the public accessor `language` is a pure delegation: it takes zero
arguments (beyond the ambient linking environment), returns exactly the value
produced by the single foreign function `tree_sitter_ysh`, and its operational
form performs no other computation, branching, or state access in between. -/
theorem C1_language_is_pure_delegation (env : Env) (s : UnitState) :
    language env = env.tree_sitter_ysh () ∧
    runOp env .language s = .ok (.lang (env.tree_sitter_ysh ()), s) :=
  ⟨rfl, rfl⟩

/-- C2: the unit re-exports exactly the three embedded constants
`NODE_TYPES`, `HIGHLIGHTS_QUERY` and `LOCALS_QUERY`, and whenever the build
succeeds the byte content of each equals, byte for byte, the content of the
grammar-project file it embeds; the unit contributes no bytes of its own. -/
theorem C2_constants_embed_files_byte_for_byte (env : Env) (u : UnitConsts)
    (h : buildUnit env = some u) :
    u.NODE_TYPES = env.nodeTypesBytes ∧
    u.HIGHLIGHTS_QUERY = env.highlightsBytes ∧
    u.LOCALS_QUERY = env.localsBytes := by
  unfold buildUnit at h
  split at h
  · cases h
    refine ⟨includeStr_eq ?_, includeStr_eq ?_, includeStr_eq ?_⟩ <;> assumption
  · exact absurd h (by simp)

/-- Witness for C2 at the concrete environment `envA`. -/
theorem C2_witness :
    buildUnit envA = some constsA ∧
    (constsA.NODE_TYPES = envA.nodeTypesBytes ∧
     constsA.HIGHLIGHTS_QUERY = envA.highlightsBytes ∧
     constsA.LOCALS_QUERY = envA.localsBytes) :=
  ⟨by decide, C2_constants_embed_files_byte_for_byte envA constsA (by decide)⟩

/-- C3: the accessor `language` exposes no error path: at every invocation its
runtime semantics returns a language handle wrapped in `.ok`, never an error
value; it leaves the unit state untouched. -/
theorem C3_language_no_error_path (env : Env) (s : UnitState) :
    ∃ l : Language, runOp env .language s = .ok (.lang l, s) :=
  ⟨env.tree_sitter_ysh (), rfl⟩

/-- C4: the accessor `language` is pure, stateless and reentrant: any two
invocations, in any order and from any unit states, return equal results. -/
theorem C4_language_two_run_determinism (env : Env) (s₁ s₂ : UnitState) :
    (runOp env .language s₁).map Prod.fst = (runOp env .language s₂).map Prod.fst :=
  rfl

/-- C5: the embedded constants are immutable: no operation of the unit (in
particular no invocation of `language`) changes the unit state, so the
constants' values before and after every operation are identical. -/
theorem C5_constants_immutable_frame (env : Env) (op : Op) (s : UnitState)
    (v : Value) (s' : UnitState) (h : runOp env op s = .ok (v, s')) :
    s' = s ∧ s'.consts = s.consts := by
  cases op <;>
    simp only [runOp, Except.ok.injEq, Prod.mk.injEq] at h <;>
    exact ⟨h.2.symm, by rw [h.2]⟩

/-- Witness for C5: a constant lookup on the concrete state `stA`. -/
theorem C5_witness :
    runOp envA .nodeTypes stA = .ok (.str constsA.NODE_TYPES, stA) ∧
    (stA = stA ∧ stA.consts = stA.consts) :=
  ⟨rfl, C5_constants_immutable_frame envA .nodeTypes stA (.str constsA.NODE_TYPES) stA rfl⟩

/-- C6: in a well-linked environment the accessor yields a usable language
definition: configuring a tree-sitter parser with the returned handle via
`set_language` succeeds, at every invocation and for every parser. -/
theorem C6_language_usable (env : Env) (h : WellLinked env) (p : Parser) :
    ∃ p' : Parser, set_language p (language env) = .ok p' ∧
      p'.lang = some (language env) := by
  refine ⟨{ p with lang := some (language env) }, ?_, rfl⟩
  unfold set_language
  rw [if_pos]
  exact h ()

/-- Witness for C6 at the concrete well-linked environment `envA`. -/
theorem C6_witness :
    WellLinked envA ∧
    ∃ p' : Parser, set_language parser0 (language envA) = .ok p' ∧
      p'.lang = some (language envA) :=
  ⟨by intro u; cases u; exact ⟨by decide, by decide⟩,
   C6_language_usable envA (by intro u; cases u; exact ⟨by decide, by decide⟩) parser0⟩

/-- C7: the unit has no algorithmic content: every public operation is either
the single FFI delegation (returning the foreign function's value) or a
lookup of one of the three constants, with the state unchanged in all cases. -/
theorem C7_every_op_delegation_or_constant_lookup (env : Env) (s : UnitState)
    (op : Op) :
    runOp env op s = .ok (.lang (env.tree_sitter_ysh ()), s) ∨
    ∃ b : FileBytes, runOp env op s = .ok (.str b, s) ∧
      (b = s.consts.NODE_TYPES ∨ b = s.consts.HIGHLIGHTS_QUERY ∨
       b = s.consts.LOCALS_QUERY) := by
  cases op
  · exact Or.inl rfl
  · exact Or.inr ⟨_, rfl, Or.inl rfl⟩
  · exact Or.inr ⟨_, rfl, Or.inr (Or.inl rfl)⟩
  · exact Or.inr ⟨_, rfl, Or.inr (Or.inr rfl)⟩

/-- C8: whenever the build succeeds, each of the three embedded constants is
valid UTF-8 (the `include_str` embedding only accepts valid UTF-8 files), so
each constant is a genuine string, not an arbitrary byte blob. -/
theorem C8_constants_valid_utf8 (env : Env) (u : UnitConsts)
    (h : buildUnit env = some u) :
    validUtf8 u.NODE_TYPES = true ∧ validUtf8 u.HIGHLIGHTS_QUERY = true ∧
    validUtf8 u.LOCALS_QUERY = true := by
  unfold buildUnit at h
  split at h
  · rename_i n hq lq hn hh hl
    cases h
    exact ⟨includeStr_valid hn, includeStr_valid hh, includeStr_valid hl⟩
  · exact absurd h (by simp)

/-- Witness for C8 at the concrete environment `envB`, whose files contain
two-, three- and four-byte UTF-8 sequences. -/
theorem C8_witness :
    buildUnit envB = some constsB ∧
    (validUtf8 constsB.NODE_TYPES = true ∧
     validUtf8 constsB.HIGHLIGHTS_QUERY = true ∧
     validUtf8 constsB.LOCALS_QUERY = true) :=
  ⟨by decide, C8_constants_valid_utf8 envB constsB (by decide)⟩

/-- C9: the unsafety of the foreign call is fully encapsulated: every public
operation is total (it imposes no precondition and always returns `.ok` with
the state unchanged), and only `Op.language` touches the foreign symbol — the
result of every other operation is independent of the linking environment. -/
theorem C9_unsafety_encapsulated (env env' : Env) (s : UnitState) (op : Op) :
    (∃ v : Value, runOp env op s = .ok (v, s)) ∧
    (op ≠ .language → runOp env op s = runOp env' op s) := by
  cases op
  · exact ⟨⟨_, rfl⟩, fun hne => absurd rfl hne⟩
  · exact ⟨⟨_, rfl⟩, fun _ => rfl⟩
  · exact ⟨⟨_, rfl⟩, fun _ => rfl⟩
  · exact ⟨⟨_, rfl⟩, fun _ => rfl⟩

/-- Witness for C9: the constant lookup `Op.nodeTypes` returns the same value
under `envA` and under `envC`, which differ exactly in the foreign function. -/
theorem C9_witness :
    Op.nodeTypes ≠ Op.language ∧
    ((∃ v : Value, runOp envA .nodeTypes stA = .ok (v, stA)) ∧
     runOp envA .nodeTypes stA = runOp envC .nodeTypes stA) :=
  ⟨by decide,
   (C9_unsafety_encapsulated envA envC stA .nodeTypes).1,
   (C9_unsafety_encapsulated envA envC stA .nodeTypes).2 (by decide)⟩

end TreeSitterYsh
